import Mathlib

/-!
Shallow embedding of the satisfaction-analytics and recommendation core of
`src/routes/orderRoutes.js` (a restaurant back-of-house service).

Numeric conventions: JavaScript numbers are modelled as rationals, integer
counts and millisecond timestamps as naturals.  `Number.prototype.toFixed(n)`
followed by `parseFloat` is modelled as exact rational rounding (half-up) to
`n` decimal places.  Dates are modelled in UTC: a JS `Date` is its epoch
offset in milliseconds, and the calendar components that MongoDB's date
operators extract are computed with the standard proleptic-Gregorian civil
calendar algorithm.  External capabilities (the HuggingFace sentiment
classifier, summarizer and text generator) and the backing Mongo store are
modelled as oracle parameters returning `Except`: `.ok` is a successful
response, `.error` a thrown/rejected call.  The classifier's result label set
is {positive, neutral, negative} per the interface contract of the external
capability (spec section 6).
-/

/-- Sentiment label, the label set of the external text classifier per the
interface contract (spec section 6). -/
inductive Label where
  | positive
  | neutral
  | negative
deriving DecidableEq, Repr

/-- Result of one classifier call: `{label, score}`. -/
structure SentimentResult where
  label : Label
  score : ℚ
deriving DecidableEq, Repr

/-- Sentiment distribution accumulator, mirroring the reduce seed
`{ positive: 0, neutral: 0, negative: 0 }` in the routes. -/
structure SentimentDistribution where
  positive : ℕ
  neutral : ℕ
  negative : ℕ
deriving DecidableEq, Repr

/-- One step of the label-counting reduce: `acc[label] = (acc[label] || 0) + 1`. -/
def SentimentDistribution.incr (d : SentimentDistribution) : Label → SentimentDistribution
  | Label.positive => { d with positive := d.positive + 1 }
  | Label.neutral => { d with neutral := d.neutral + 1 }
  | Label.negative => { d with negative := d.negative + 1 }

/-- The label-counting reduce used by all three analytics routes
(`sentimentResults.reduce(...)`, lines 334-337, 493-496, 582-585). -/
def countLabels (ls : List Label) : SentimentDistribution :=
  ls.foldl (fun acc l => acc.incr l) ⟨0, 0, 0⟩

/-- `parseFloat(x.toFixed(2))`: rounding to two decimal places, half up. -/
def roundTo2 (q : ℚ) : ℚ := (⌊q * 100 + 1/2⌋ : ℚ) / 100

/-- `parseFloat(x.toFixed(1))`: rounding to one decimal place, half up. -/
def roundTo1 (q : ℚ) : ℚ := (⌊q * 10 + 1/2⌋ : ℚ) / 10

/-- `calculateSatisfactionScore` (orderRoutes.js lines 703-721): blend the
average rating and the sentiment ratio, weights 0.6/0.4, round the blend to
two decimals, then scale by 100. -/
def calculateSatisfactionScore (averageRating : ℚ) (sentimentDistribution : SentimentDistribution) : ℚ :=
  let ratingWeight : ℚ := 6/10
  let sentimentWeight : ℚ := 4/10
  let maxSentiment : ℕ :=
    max sentimentDistribution.positive (max sentimentDistribution.neutral sentimentDistribution.negative)
  let sentimentRatio : ℚ :=
    if 0 < maxSentiment then (sentimentDistribution.positive : ℚ) / (maxSentiment : ℚ) else 1/2
  roundTo2 (averageRating / 5 * ratingWeight + sentimentRatio * sentimentWeight) * 100

/-- The satisfaction-score formula exactly as the specification words it
(spec section 4.3 step (4)-(5)): `sentimentRatio = positiveCount /
max(positiveCount, neutralCount, negativeCount)`, defaulting to 0.5 when all
three counts are zero, and `score = round((avgRating/5 * 0.6) +
(sentimentRatio * 0.4), 2) * 100`.  Stated from the spec's words for
comparison with `calculateSatisfactionScore`. -/
def specSatisfactionScoreFormula (averageRating : ℚ) (pos neu neg : ℕ) : ℚ :=
  let sentimentRatio : ℚ :=
    if pos = 0 ∧ neu = 0 ∧ neg = 0 then 1/2
    else (pos : ℚ) / ((max pos (max neu neg) : ℕ) : ℚ)
  roundTo2 (averageRating / 5 * (6/10) + sentimentRatio * (4/10)) * 100

/-- An external classifier call: the HuggingFace `textClassification` API
returns a list of `{label, score}` candidates (the code reads `result[0]`),
or fails. -/
abbrev Classifier := String → Except String (List SentimentResult)

/-- The summarization capability: input text, `max_length`, `min_length`. -/
abbrev Summarizer := String → ℕ → ℕ → Except String String

/-- The text-generation capability: prompt, `max_new_tokens`, `temperature`. -/
abbrev Generator := String → ℕ → ℚ → Except String String

/-- `String.prototype.trim()`: strip leading and trailing whitespace
(implemented structurally over the character list so that concrete values
reduce). -/
def jsTrim (s : String) : String :=
  String.mk (((s.data.dropWhile Char.isWhitespace).reverse.dropWhile Char.isWhitespace).reverse)

/-- `analyzeSentiment` (orderRoutes.js lines 291-310): empty or
whitespace-only text short-circuits to neutral/0.5 without calling the
classifier; a failed call, or a malformed (empty-array) response whose
`result[0]` access throws inside the `try`, also yields neutral/0.5. -/
def analyzeSentiment (classify : Classifier) (text : String) : SentimentResult :=
  if (jsTrim text).length = 0 then ⟨Label.neutral, 1/2⟩
  else
    match classify text with
    | Except.ok (r :: _) => ⟨r.label, r.score⟩
    | Except.ok [] => ⟨Label.neutral, 1/2⟩
    | Except.error _ => ⟨Label.neutral, 1/2⟩

/-- A persisted feedback record as the analytics routes consume it. -/
structure FeedbackRec where
  rating : ℕ
  comment : String
  createdAt : ℕ
deriving DecidableEq, Repr

/-- Sum of the ratings of a feedback list as a rational
(`reduce((sum, fb) => sum + fb.rating, 0)`). -/
def ratingSum (l : List FeedbackRec) : ℚ :=
  (l.map fun fb => (fb.rating : ℚ)).sum

/-- Metrics block of the global dashboard route, restricted to the
review/sentiment fields the spec's core describes (the remaining fields of
the response - customer counts, trending items, issue counts - are separate
store aggregations outside the satisfaction core). -/
structure GlobalMetrics where
  totalReviews : ℕ
  averageRating : ℚ
  sentimentDistribution : SentimentDistribution
  satisfactionScore : ℚ
deriving DecidableEq, Repr

/-- The global dashboard computation (orderRoutes.js lines 324-372) given the
already-computed per-comment sentiment results. -/
def globalMetricsOf (allFeedback : List FeedbackRec) (sentimentResults : List SentimentResult) : GlobalMetrics :=
  let totalReviews := allFeedback.length
  let averageRating : ℚ := if 0 < totalReviews then ratingSum allFeedback / (totalReviews : ℚ) else 0
  let sentimentDistribution := countLabels (sentimentResults.map SentimentResult.label)
  { totalReviews := totalReviews
    averageRating := roundTo1 averageRating
    sentimentDistribution := sentimentDistribution
    satisfactionScore := calculateSatisfactionScore averageRating sentimentDistribution }

/-- `GET /analytics/satisfaction` metrics (orderRoutes.js lines 313-378):
classify every comment, then build the metrics.  Note the route computes the
score unconditionally, with no emptiness guard. -/
def globalMetrics (classify : Classifier) (allFeedback : List FeedbackRec) : GlobalMetrics :=
  globalMetricsOf allFeedback (allFeedback.map fun fb => analyzeSentiment classify fb.comment)

/-- Per-scope metrics block shared by the per-customer route (lines 508-515)
and the per-food-item route (lines 608-615). -/
structure ProfileMetrics where
  totalFeedback : ℕ
  averageRating : ℚ
  sentimentDistribution : SentimentDistribution
  satisfactionScore : ℚ
  lastOrderDate : Option ℕ
  totalOrders : ℕ
deriving DecidableEq, Repr

/-- The per-scope metrics computation: average over the scope's feedback,
label counts, satisfaction score, plus the order-history fields. -/
def profileMetrics (fbs : List FeedbackRec) (sentimentResults : List SentimentResult)
    (orderDates : List ℕ) (totalOrders : ℕ) : ProfileMetrics :=
  let averageRating : ℚ := ratingSum fbs / (fbs.length : ℚ)
  let sentimentDistribution := countLabels (sentimentResults.map SentimentResult.label)
  { totalFeedback := fbs.length
    averageRating := roundTo1 averageRating
    sentimentDistribution := sentimentDistribution
    satisfactionScore := calculateSatisfactionScore averageRating sentimentDistribution
    lastOrderDate := orderDates.head?
    totalOrders := totalOrders }

/-- Responses of `GET /analytics/customers/:id/satisfaction`. -/
inductive CustomerResp where
  | badRequest
  | serverError
  | okNoFeedback
  | okProfile (m : ProfileMetrics)
deriving DecidableEq, Repr

/-- `GET /analytics/customers/:id/satisfaction` (orderRoutes.js lines
460-543).  `idValid` is `mongoose.Types.ObjectId.isValid(id)`;
`feedbackStore` is the `FoodItem.find` aggregation already filtered to the
customer's records; `orderStore` delivers the completed-order dates
(descending) and the total order count.  A store rejection is caught by the
route's `catch` and becomes a 500; classifier failures never reach it. -/
def customerSatisfactionRoute (idValid : Bool) (feedbackStore : Except String (List FeedbackRec))
    (orderStore : Except String (List ℕ × ℕ)) (classify : Classifier) : CustomerResp :=
  if !idValid then CustomerResp.badRequest
  else
    match feedbackStore with
    | Except.error _ => CustomerResp.serverError
    | Except.ok customerFeedback =>
      if customerFeedback.isEmpty then CustomerResp.okNoFeedback
      else
        match orderStore with
        | Except.error _ => CustomerResp.serverError
        | Except.ok (orderDates, totalOrders) =>
          CustomerResp.okProfile (profileMetrics customerFeedback
            (customerFeedback.map fun fb => analyzeSentiment classify fb.comment)
            orderDates totalOrders)

/-- A food item document as the per-item route consumes it. -/
structure FoodItemRec where
  name : String
  feedback : List FeedbackRec
deriving DecidableEq, Repr

/-- Responses of `GET /analytics/food-items/:id/satisfaction`. -/
inductive FoodResp where
  | badRequest
  | serverError
  | notFound
  | okNoFeedback
  | okMetrics (m : ProfileMetrics)
deriving DecidableEq, Repr

/-- `GET /analytics/food-items/:id/satisfaction` (orderRoutes.js lines
546-644): invalid id gives 400, a missing document 404, an empty feedback
array the early no-feedback response, and otherwise the metrics block. -/
def foodItemSatisfactionRoute (idValid : Bool) (itemStore : Except String (Option FoodItemRec))
    (orderStore : Except String (List ℕ × ℕ)) (classify : Classifier) : FoodResp :=
  if !idValid then FoodResp.badRequest
  else
    match itemStore with
    | Except.error _ => FoodResp.serverError
    | Except.ok none => FoodResp.notFound
    | Except.ok (some foodItem) =>
      if foodItem.feedback.isEmpty then FoodResp.okNoFeedback
      else
        match orderStore with
        | Except.error _ => FoodResp.serverError
        | Except.ok (orderDates, totalOrders) =>
          FoodResp.okMetrics (profileMetrics foodItem.feedback
            (foodItem.feedback.map fun fb => analyzeSentiment classify fb.comment)
            orderDates totalOrders)

/-- Milliseconds per UTC day. -/
def msPerDay : ℕ := 86400000

/-- Day index since the epoch of a millisecond timestamp. -/
def epochDay (ms : ℕ) : ℕ := ms / msPerDay

/-- Millisecond offset within the UTC day. -/
def msInDay (ms : ℕ) : ℕ := ms % msPerDay

/-- Civil (proleptic Gregorian) date `(year, month, day)` of an epoch day
index, for dates on or after 1970-01-01 (all timestamps here are naturals,
hence at or after the epoch). -/
def civilFromDays (z : ℕ) : ℕ × ℕ × ℕ :=
  let z' := z + 719468
  let era := z' / 146097
  let doe := z' % 146097
  let yoe := (doe - doe / 1460 + doe / 36524 - doe / 146096) / 365
  let y := yoe + era * 400
  let doy := doe - (365 * yoe + yoe / 4 - yoe / 100)
  let mp := (5 * doy + 2) / 153
  let d := doy - (153 * mp + 2) / 5 + 1
  let m := if mp < 10 then mp + 3 else mp - 9
  (if m ≤ 2 then y + 1 else y, m, d)

/-- Epoch day index of a civil date (year at least 1970, month 1-12; a
day beyond the month's length overflows into the following days, matching
the JS `Date` normalization). -/
def daysFromCivil (y m d : ℕ) : ℕ :=
  let y' := if m ≤ 2 then y - 1 else y
  let era := y' / 400
  let yoe := y' % 400
  let doy := (153 * (if 2 < m then m - 3 else m + 9) + 2) / 5 + d - 1
  let doe := yoe * 365 + yoe / 4 - yoe / 100 + doy
  era * 146097 + doe - 719468

/-- UTC calendar year of a timestamp (MongoDB `$year`). -/
def dateYear (ms : ℕ) : ℕ := (civilFromDays (epochDay ms)).1

/-- UTC calendar month, 1-12, of a timestamp (MongoDB `$month`). -/
def dateMonth (ms : ℕ) : ℕ := (civilFromDays (epochDay ms)).2.1

/-- UTC day of month of a timestamp. -/
def dateDay (ms : ℕ) : ℕ := (civilFromDays (epochDay ms)).2.2

/-- UTC day of year, 1-366, of a timestamp (MongoDB `$dayOfYear`). -/
def dateDayOfYear (ms : ℕ) : ℕ := epochDay ms - daysFromCivil (dateYear ms) 1 1 + 1

/-- UTC day of week, 0 = Sunday (1970-01-01 was a Thursday). -/
def dateWeekday (ms : ℕ) : ℕ := (epochDay ms + 4) % 7

/-- UTC week of year, 0-53, Sunday-start with days before the first Sunday
in week 0 (MongoDB `$week`). -/
def dateWeek (ms : ℕ) : ℕ := (dateDayOfYear ms + 6 - dateWeekday ms) / 7

/-- Epoch milliseconds of midnight UTC of a civil date; used to build the
concrete records of the theorems below. -/
def mkMs (y m d : ℕ) : ℕ := daysFromCivil y m d * msPerDay

/-- `getDateGrouping` (orderRoutes.js lines 723-731): selects the MongoDB
date operator used as the `$group` key, i.e. the calendar-component
extractor; an unknown period falls through to `$month`. -/
def getDateGrouping (period : String) : ℕ → ℕ :=
  if period = "day" then dateDayOfYear
  else if period = "week" then dateWeek
  else if period = "month" then dateMonth
  else if period = "year" then dateYear
  else dateMonth

/-- One bucket of the satisfaction-trend aggregation: `_id` (the group key),
`averageRating` (`$avg` over every record of the group) and `count`. -/
structure TrendBucket where
  key : ℕ
  averageRating : ℚ
  count : ℕ
deriving DecidableEq, Repr, Inhabited

/-- The distinct group keys occurring in a feedback list for a period. -/
def feedbackKeys (period : String) (rs : List FeedbackRec) : List ℕ :=
  (rs.map fun r => getDateGrouping period r.createdAt).dedup

/-- The records of `rs` falling in the group of key `k`. -/
def keyGroup (period : String) (k : ℕ) (rs : List FeedbackRec) : List FeedbackRec :=
  rs.filter fun r => getDateGrouping period r.createdAt = k

/-- The rating-trend aggregation of `GET /analytics/satisfaction-trend`
(orderRoutes.js lines 395-408): `$group` by the extracted calendar
component, `$avg` the ratings of each group, `$sort` ascending by `_id`,
`$limit 30`. -/
def trendBuckets (period : String) (rs : List FeedbackRec) : List TrendBucket :=
  ((List.insertionSort (· ≤ ·) (feedbackKeys period rs)).map fun k =>
    let grp := keyGroup period k rs
    { key := k
      averageRating := ratingSum grp / (grp.length : ℚ)
      count := grp.length }).take 30

/-- `getNextPeriodDate` (orderRoutes.js lines 733-742): advance a JS `Date`
by one period using calendar arithmetic (modelled in UTC); an unknown period
leaves the date unchanged (the `switch` has no default). -/
def getNextPeriodDate (ms : ℕ) (period : String) : ℕ :=
  if period = "day" then ms + msPerDay
  else if period = "week" then ms + 7 * msPerDay
  else if period = "month" then
    let c := civilFromDays (epochDay ms)
    let ym := if c.2.1 = 12 then (c.1 + 1, 1) else (c.1, c.2.1 + 1)
    daysFromCivil ym.1 ym.2 c.2.2 * msPerDay + msInDay ms
  else if period = "year" then
    let c := civilFromDays (epochDay ms)
    daysFromCivil (c.1 + 1) c.2.1 c.2.2 * msPerDay + msInDay ms
  else ms

/-- The candidate pool of the per-bucket sentiment `$match` (orderRoutes.js
lines 413-424): record timestamps at or after `new Date(periodData._id)` and
before `getNextPeriodDate(new Date(periodData._id), period)`.  The group key
`periodData._id` - a calendar component number - is reinterpreted by
`new Date(...)` as milliseconds since the epoch.  The `$sample` stage then
draws at most 10 records from this pool. -/
def windowFeedback (period : String) (key : ℕ) (rs : List FeedbackRec) : List FeedbackRec :=
  rs.filter fun r => key ≤ r.createdAt ∧ r.createdAt < getNextPeriodDate key period

/-- Timestamp truncation to a granularity, as the specification words the
bucketer's grouping (spec section 4.4: "truncate every feedback record's
timestamp to the requested granularity, group by truncated key"): the
year-qualified period start.  Stated from the spec's words for comparison
with the grouping key of `trendBuckets`. -/
def specTruncateToPeriod (period : String) (ms : ℕ) : ℕ × ℕ :=
  if period = "day" then (dateYear ms, dateDayOfYear ms)
  else if period = "week" then (dateYear ms, dateWeek ms)
  else if period = "month" then (dateYear ms, dateMonth ms)
  else if period = "year" then (dateYear ms, 0)
  else (dateYear ms, dateMonth ms)

/-- One aggregated feedback entry of the recommendation engine
(orderRoutes.js lines 34-44): the owning food item's name attached to the
record. -/
structure UserFeedback where
  foodItem : String
  comment : String
  rating : ℕ
  createdAt : ℕ
deriving DecidableEq, Repr

/-- A feedback entry after the sentiment stage (lines 56-77). -/
structure FbWithSentiment extends UserFeedback where
  sentiment : Label
  sentimentScore : ℚ
deriving DecidableEq, Repr

/-- Recommendation priority tag. -/
inductive Priority where
  | low
  | normal
  | high
deriving DecidableEq, Repr

/-- `historicalData` block of a recommendation (lines 150-156). -/
structure HistoricalData where
  averageRating : ℚ
  totalFeedback : ℕ
  lastFeedbackDate : String
  negativeFeedbackCount : ℕ
  positiveFeedbackCount : ℕ
deriving DecidableEq, Repr

/-- One entry of `feedbackSamples` (lines 157-163). -/
structure Sample where
  foodItem : String
  comment : String
  rating : ℕ
  sentiment : Label
  date : String
deriving DecidableEq, Repr

/-- The recommendation object.  The no-history and catch-all payloads carry
no `historicalData`/`feedbackSamples` (the code returns `feedbackHistory:
[]` instead); those fields are `none` there. -/
structure ChefRec where
  recommendation : String
  priority : Priority
  sentiment : Label
  historicalData : Option HistoricalData
  feedbackSamples : Option (List Sample)
deriving DecidableEq, Repr

/-- `toString` of a label as the HuggingFace adapter's label strings. -/
def labelText : Label → String
  | Label.positive => "positive"
  | Label.neutral => "neutral"
  | Label.negative => "negative"

/-- `new Date(ms).toLocaleDateString()` modelled as the en-US short date
(month/day/year); the exact shape is locale-dependent and no property below
depends on it. -/
def fmtDate (ms : ℕ) : String :=
  toString (dateMonth ms) ++ "/" ++ toString (dateDay ms) ++ "/" ++ toString (dateYear ms)

/-- `x.toFixed(1)` for a non-negative rational, as a string. -/
def toFixed1 (q : ℚ) : String :=
  let n := ⌊q * 10 + 1/2⌋
  toString (n / 10) ++ "." ++ toString (n % 10)

/-- One line of the feedback digest (line 81). -/
def fmtFeedbackLine (fb : FbWithSentiment) : String :=
  "On " ++ fmtDate fb.createdAt ++ " for " ++ fb.foodItem ++ ": Rated "
    ++ toString fb.rating ++ "/5 - \"" ++ fb.comment ++ "\" ("
    ++ labelText fb.sentiment ++ ", " ++ toFixed1 (fb.sentimentScore * 100)
    ++ "% confidence)"

/-- The generation-stage prompt (lines 107-120). -/
def chefPrompt (feedbackSummary currentOrderItems : String) : String :=
  "As a professional chef, analyze this customer\x27s feedback history and current order to generate specific cooking recommendations.\n\nCUSTOMER FEEDBACK SUMMARY:\n"
    ++ feedbackSummary
    ++ "\n\nCURRENT ORDER ITEMS:\n"
    ++ currentOrderItems
    ++ "\n\nProvide detailed technical suggestions including:\n- Seasoning adjustments\n- Cooking techniques\n- Presentation tips\n- Quality control measures\n- Any special considerations based on their preferences"

/-- An item of the current order as the synthesizer consumes it. -/
structure OrderItem where
  name : String
  quantity : ℕ
deriving DecidableEq, Repr

/-- The sentiment stage of the synthesizer (lines 56-77): classify each
comment, a failed call or malformed (empty) response degrading that entry to
neutral/0.5.  `Promise.all` preserves order. -/
def attachSentiments (classify : Classifier) (fbs : List UserFeedback) : List FbWithSentiment :=
  fbs.map fun fb =>
    match classify fb.comment with
    | Except.ok (r :: _) =>
      { toUserFeedback := fb, sentiment := r.label, sentimentScore := r.score }
    | Except.ok [] =>
      { toUserFeedback := fb, sentiment := Label.neutral, sentimentScore := 1/2 }
    | Except.error _ =>
      { toUserFeedback := fb, sentiment := Label.neutral, sentimentScore := 1/2 }

/-- The priority computation (lines 141-143). -/
def computePriority (avgRating : ℚ) (negativeFeedbackCount totalFeedback : ℕ) : Priority :=
  if avgRating < 5/2 ∨ (totalFeedback : ℚ) * (5/10) < (negativeFeedbackCount : ℚ) then Priority.high
  else if 21/5 < avgRating ∧ negativeFeedbackCount = 0 then Priority.low
  else Priority.normal

/-- The overall sentiment label (line 148):
`avgRating >= 3 ? "positive" : avgRating >= 2 ? "neutral" : "negative"`. -/
def overallSentiment (avgRating : ℚ) : Label :=
  if 3 ≤ avgRating then Label.positive
  else if 2 ≤ avgRating then Label.neutral
  else Label.negative

/-- Projection of a classified entry to a `feedbackSamples` entry
(lines 157-163). -/
def mkSample (fb : FbWithSentiment) : Sample :=
  { foodItem := fb.foodItem
    comment := fb.comment
    rating := fb.rating
    sentiment := fb.sentiment
    date := fmtDate fb.createdAt }

/-- The fallback summary constant (line 97). -/
def fallbackSummary : String :=
  "Customer has provided mixed feedback across various dishes. Check individual comments for details."

/-- The fallback generated recommendation constant (line 134). -/
def fallbackRecommendationText : String :=
  "Standard preparation recommended. Check customer\x27s past feedback for potential preferences."

/-- The no-history recommendation (lines 46-53). -/
def noHistoryRec : ChefRec :=
  { recommendation := "No previous feedback found from this customer. Prepare using standard recipes and presentation."
    priority := Priority.normal
    sentiment := Label.neutral
    historicalData := none
    feedbackSamples := none }

/-- The catch-all default recommendation (lines 166-175), returned when
anything inside `generateChefRecommendation` - including the store queries -
throws. -/
def catchAllRec : ChefRec :=
  { recommendation := "Standard preparation required. Check customer\x27s past ratings for potential preferences."
    priority := Priority.normal
    sentiment := Label.neutral
    historicalData := none
    feedbackSamples := none }

/-- Stages 2-6 of the synthesizer for a non-empty history (lines 79-164),
taking the already classified entries. -/
def chefRecFromSentiments (summarize : Summarizer) (generate : Generator)
    (allUserFeedback : List UserFeedback) (feedbackWithSentiment : List FbWithSentiment)
    (orderedItems : List OrderItem) : ChefRec :=
  let feedbackSummaryText := String.intercalate "\n" (feedbackWithSentiment.map fmtFeedbackLine)
  let feedbackSummary :=
    match summarize feedbackSummaryText 150 50 with
    | Except.ok s => s
    | Except.error _ => fallbackSummary
  let currentOrderItems :=
    String.intercalate ", " (orderedItems.map fun it => toString it.quantity ++ "x " ++ it.name)
  let recommendation :=
    match generate (chefPrompt feedbackSummary currentOrderItems) 500 (7/10) with
    | Except.ok t => jsTrim t
    | Except.error _ => fallbackRecommendationText
  let avgRating : ℚ :=
    ((allUserFeedback.map fun fb => (fb.rating : ℚ)).sum) / (allUserFeedback.length : ℚ)
  let negativeFeedbackCount :=
    (feedbackWithSentiment.filter fun fb => fb.sentiment = Label.negative).length
  { recommendation := recommendation
    priority := computePriority avgRating negativeFeedbackCount allUserFeedback.length
    sentiment := overallSentiment avgRating
    historicalData := some
      { averageRating := roundTo1 avgRating
        totalFeedback := allUserFeedback.length
        lastFeedbackDate := fmtDate (((allUserFeedback.getLast?).map UserFeedback.createdAt).getD 0)
        negativeFeedbackCount := negativeFeedbackCount
        positiveFeedbackCount :=
          (feedbackWithSentiment.filter fun fb => fb.sentiment = Label.positive).length }
    feedbackSamples := some ((feedbackWithSentiment.take 3).map mkSample) }

/-- `generateChefRecommendation` (orderRoutes.js lines 20-176).  `store` is
the `FoodItem.find` aggregation of the user's feedback across all items
(lines 23-44); its rejection is swallowed by the function's own catch-all
and becomes `catchAllRec` - it does not propagate. -/
def generateChefRecommendation (classify : Classifier) (summarize : Summarizer)
    (generate : Generator) (store : Except String (List UserFeedback))
    (orderedItems : List OrderItem) : ChefRec :=
  match store with
  | Except.error _ => catchAllRec
  | Except.ok allUserFeedback =>
    if allUserFeedback.isEmpty then noHistoryRec
    else
      chefRecFromSentiments summarize generate allUserFeedback
        (attachSentiments classify allUserFeedback) orderedItems

/-- One pending/preparing order of the chef queue, restricted to the fields
the analysis consumes: the (optional, guest when absent) user id and the
items. -/
structure ChefOrder where
  userId : Option String
  items : List OrderItem
deriving DecidableEq, Repr

/-- The guest-user default analysis of the chef route (lines 225-234). -/
def guestRec : ChefRec :=
  { recommendation := "Guest user - no feedback history available"
    priority := Priority.normal
    sentiment := Label.neutral
    historicalData := none
    feedbackSamples := none }

/-- `GET /chef?analyze=true` (orderRoutes.js lines 179-258), analysis part:
a failing order query is caught by the route and becomes a 500; each order's
analysis comes from `generateChefRecommendation`, which never throws, so a
failing feedback store never fails the request. -/
def chefRouteAnalyses (orderStore : Except String (List ChefOrder))
    (feedbackStoreFor : String → Except String (List UserFeedback))
    (classify : Classifier) (summarize : Summarizer) (generate : Generator) :
    Except ℕ (List (ChefOrder × ChefRec)) :=
  match orderStore with
  | Except.error _ => Except.error 500
  | Except.ok orders =>
    Except.ok (orders.map fun order =>
      match order.userId with
      | none => (order, guestRec)
      | some uid =>
        (order, generateChefRecommendation classify summarize generate
          (feedbackStoreFor uid) order.items))

/-- A persisted order document (fields per the data model). -/
structure Order where
  id : String
  userId : String
  items : List OrderItem
  status : String
  createdAt : ℕ
  updatedAt : ℕ
  totalAmount : ℚ
deriving DecidableEq, Repr

/-- `validStatuses` of the status-update route (orderRoutes.js line 264). -/
def validStatuses : List String :=
  ["pending", "preparing", "ready", "completed", "cancelled"]

/-- Outcome of the status-update route: HTTP status, response body, and the
store after the request. -/
structure UpdateOutcome where
  statusCode : ℕ
  body : Option Order
  db : List Order
deriving DecidableEq, Repr

/-- The `findByIdAndUpdate` write: set `status` and `updatedAt`, leave every
other field as is. -/
def applyStatusUpdate (o : Order) (status : String) (now : ℕ) : Order :=
  { o with status := status, updatedAt := now }

/-- The store after `findByIdAndUpdate`: the (unique) id-matched document
updated, all others untouched. -/
def updateFirst (reqId status : String) (now : ℕ) : List Order → List Order
  | [] => []
  | o :: rest =>
    if o.id == reqId then applyStatusUpdate o status now :: rest
    else o :: updateFirst reqId status now rest

/-- `PATCH /:id/status` (orderRoutes.js lines 261-288): reject an invalid
status with 400 before touching the store; 404 when no document matches the
id; otherwise update and return the updated document (`{ new: true }`) with
200. -/
def updateOrderStatus (reqId status : String) (now : ℕ) (db : List Order) : UpdateOutcome :=
  if status ∉ validStatuses then ⟨400, none, db⟩
  else
    match db.find? (fun o => o.id == reqId) with
    | none => ⟨404, none, db⟩
    | some o => ⟨200, some (applyStatusUpdate o status now), updateFirst reqId status now db⟩

/-- A classifier oracle that always succeeds with a positive label. -/
def okClassifier : Classifier := fun _ => Except.ok [⟨Label.positive, 9/10⟩]

/-- A classifier oracle that always fails. -/
def failClassifier : Classifier := fun _ => Except.error "service unavailable"

/-- `f` with the call on text `t` replaced by a failure `e` (a single
injected classifier failure). -/
def overrideErr (f : Classifier) (t e : String) : Classifier :=
  fun s => if s = t then Except.error e else f s

/-- `f` with the call on text `t` replaced by a successful neutral/0.5
response. -/
def overrideOk (f : Classifier) (t : String) : Classifier :=
  fun s => if s = t then Except.ok [⟨Label.neutral, 1/2⟩] else f s

/-- A summarizer oracle that always succeeds. -/
def suOk : Summarizer := fun _ _ _ => Except.ok "summary"

/-- A generator oracle that always succeeds. -/
def geOk : Generator := fun _ _ _ => Except.ok "advice"

/-- A four-entry feedback history used by the concrete sample theorems. -/
def sampleHistory : List UserFeedback :=
  [⟨"Pasta", "c1", 5, mkMs 2024 1 1⟩,
   ⟨"Pizza", "c2", 4, mkMs 2024 1 2⟩,
   ⟨"Soup", "c3", 3, mkMs 2024 1 3⟩,
   ⟨"Cake", "c4", 2, mkMs 2024 1 4⟩]

theorem countLabels_go (ls : List Label) (acc : SentimentDistribution) :
    (ls.foldl (fun a l => a.incr l) acc).positive
      + (ls.foldl (fun a l => a.incr l) acc).neutral
      + (ls.foldl (fun a l => a.incr l) acc).negative
      = acc.positive + acc.neutral + acc.negative + ls.length := by
  induction ls generalizing acc with
  | nil => simp
  | cons l ls ih =>
    simp only [List.foldl_cons, List.length_cons]
    rw [ih]
    cases l <;> simp [SentimentDistribution.incr] <;> omega

theorem countLabels_sum (ls : List Label) :
    (countLabels ls).positive + (countLabels ls).neutral + (countLabels ls).negative
      = ls.length := by
  simpa [countLabels] using countLabels_go ls ⟨0, 0, 0⟩

theorem ratingSum_nonneg (l : List FeedbackRec) : 0 ≤ ratingSum l := by
  apply List.sum_nonneg
  intro x hx
  simp only [List.mem_map] at hx
  obtain ⟨fb, -, rfl⟩ := hx
  positivity

theorem ratingSum_le (l : List FeedbackRec) (h : ∀ fb ∈ l, fb.rating ≤ 5) :
    ratingSum l ≤ 5 * (l.length : ℚ) := by
  induction l with
  | nil => simp [ratingSum]
  | cons x xs ih =>
    have hx : (x.rating : ℚ) ≤ 5 := by
      exact_mod_cast h x (List.mem_cons_self x xs)
    have hxs := ih fun fb hfb => h fb (List.mem_cons_of_mem x hfb)
    simp only [ratingSum, List.map_cons, List.sum_cons, List.length_cons] at *
    push_cast
    linarith

theorem meanRating_bounds (l : List FeedbackRec) (h : ∀ fb ∈ l, fb.rating ≤ 5) :
    0 ≤ ratingSum l / (l.length : ℚ) ∧ ratingSum l / (l.length : ℚ) ≤ 5 := by
  rcases Nat.eq_zero_or_pos l.length with h0 | h0
  · rw [h0]
    simp
  · have hlen : (0 : ℚ) < (l.length : ℚ) := by exact_mod_cast h0
    constructor
    · exact div_nonneg (ratingSum_nonneg l) (le_of_lt hlen)
    · rw [div_le_iff₀ hlen]
      calc ratingSum l ≤ 5 * (l.length : ℚ) := ratingSum_le l h
        _ = 5 * (l.length : ℚ) := rfl

theorem roundTo2_bounds (q : ℚ) (h0 : 0 ≤ q) (h1 : q ≤ 1) :
    0 ≤ roundTo2 q ∧ roundTo2 q ≤ 1 := by
  unfold roundTo2
  have hf0 : (0 : ℤ) ≤ ⌊q * 100 + 1/2⌋ := Int.floor_nonneg.mpr (by linarith)
  have hf1 : ⌊q * 100 + 1/2⌋ ≤ 100 := by
    have hle : q * 100 + 1/2 ≤ (100 : ℚ) + 1/2 := by linarith
    have := Int.floor_le_floor hle
    have h100 : ⌊(100 : ℚ) + 1/2⌋ = 100 := by
      rw [Int.floor_eq_iff]
      norm_num
    omega
  constructor
  · have : (0 : ℚ) ≤ (⌊q * 100 + 1/2⌋ : ℚ) := by exact_mod_cast hf0
    linarith
  · have : ((⌊q * 100 + 1/2⌋ : ℤ) : ℚ) ≤ 100 := by exact_mod_cast hf1
    linarith

theorem calculateSatisfactionScore_bounds (avg : ℚ) (d : SentimentDistribution)
    (h0 : 0 ≤ avg) (h5 : avg ≤ 5) :
    0 ≤ calculateSatisfactionScore avg d ∧ calculateSatisfactionScore avg d ≤ 100 := by
  unfold calculateSatisfactionScore
  set m : ℕ := max d.positive (max d.neutral d.negative) with hm
  have hratio : 0 ≤ (if 0 < m then (d.positive : ℚ) / (m : ℚ) else 1/2)
      ∧ (if 0 < m then (d.positive : ℚ) / (m : ℚ) else 1/2) ≤ 1 := by
    split_ifs with hpos
    · have hmq : (0 : ℚ) < (m : ℚ) := by exact_mod_cast hpos
      constructor
      · positivity
      · rw [div_le_one hmq]
        exact_mod_cast le_max_left d.positive (max d.neutral d.negative)
    · norm_num
  set r : ℚ := if 0 < m then (d.positive : ℚ) / (m : ℚ) else 1/2 with hr
  have hinner0 : 0 ≤ avg / 5 * (6/10) + r * (4/10) := by
    have := hratio.1
    have : 0 ≤ avg / 5 := by linarith
    nlinarith [hratio.1]
  have hinner1 : avg / 5 * (6/10) + r * (4/10) ≤ 1 := by
    have h1 : avg / 5 ≤ 1 := by linarith
    nlinarith [hratio.2]
  obtain ⟨hb0, hb1⟩ := roundTo2_bounds _ hinner0 hinner1
  constructor
  · nlinarith
  · nlinarith


/-- C1: for every feedback set, `calculateSatisfactionScore` equals the
spec's formula `round((avgRating/5 * 0.6) + (sentimentRatio * 0.4), 2) *
100` with `sentimentRatio = positiveCount / max(positiveCount, neutralCount,
negativeCount)` defaulting to 0.5 when all three counts are zero; and for
ratings `[5,5,5,5,1]` with labels `[pos,pos,pos,pos,neg]` the average rating
is 4.2, the distribution is `(4,0,1)`, the sentiment ratio is 1.0, and the
score is `round(4.2/5*0.6 + 1.0*0.4, 2) * 100 = 90`. -/
theorem satisfaction_score_matches_spec_formula :
    (∀ (avg : ℚ) (pos neu neg : ℕ),
      calculateSatisfactionScore avg ⟨pos, neu, neg⟩ = specSatisfactionScoreFormula avg pos neu neg) ∧
    ratingSum [⟨5, "a", 0⟩, ⟨5, "b", 0⟩, ⟨5, "c", 0⟩, ⟨5, "d", 0⟩, ⟨1, "e", 0⟩] / 5 = 21/5 ∧
    countLabels [Label.positive, Label.positive, Label.positive, Label.positive, Label.negative]
      = ⟨4, 0, 1⟩ ∧
    (4 : ℚ) / ((max 4 (max 0 1) : ℕ) : ℚ) = 1 ∧
    calculateSatisfactionScore (21/5) ⟨4, 0, 1⟩
      = roundTo2 ((21/5)/5 * (6/10) + 1 * (4/10)) * 100 ∧
    calculateSatisfactionScore (21/5) ⟨4, 0, 1⟩ = 90 := by
  refine ⟨?_, by norm_num [ratingSum], by decide, by norm_num, ?_, ?_⟩
  · intro avg pos neu neg
    by_cases h : pos = 0 ∧ neu = 0 ∧ neg = 0
    · obtain ⟨h1, h2, h3⟩ := h
      subst h1; subst h2; subst h3
      simp [calculateSatisfactionScore, specSatisfactionScoreFormula]
    · have hm : 0 < max pos (max neu neg) := by
        rcases Nat.eq_zero_or_pos (max pos (max neu neg)) with h0 | h0
        · exact absurd (by omega : pos = 0 ∧ neu = 0 ∧ neg = 0) h
        · exact h0
      simp [calculateSatisfactionScore, specSatisfactionScoreFormula, hm, h]
  · unfold calculateSatisfactionScore
    norm_num
  · unfold calculateSatisfactionScore roundTo2
    have hmax : max (4:ℕ) (max 0 1) = 4 := by decide
    simp only [hmax]
    have hfl : ⌊(21/5/5 * (6/10) + (4:ℚ)/((4:ℕ):ℚ) * (4/10)) * 100 + 1/2⌋ = 90 := by
      rw [Int.floor_eq_iff]
      norm_num
    norm_num [hfl]

/-- C3: in every scope - global dashboard, per-customer profile, per-item
analysis - the sentiment distribution built by counting classifier labels
satisfies `positive + neutral + negative = totalFeedback`, the number of
records classified in that scope. -/
theorem sentiment_distribution_sums_to_total :
    (∀ (classify : Classifier) (l : List FeedbackRec),
      (globalMetrics classify l).sentimentDistribution.positive
        + (globalMetrics classify l).sentimentDistribution.neutral
        + (globalMetrics classify l).sentimentDistribution.negative
        = (globalMetrics classify l).totalReviews) ∧
    (∀ (classify : Classifier) (fs : Except String (List FeedbackRec))
        (os : Except String (List ℕ × ℕ)) (m : ProfileMetrics),
      customerSatisfactionRoute true fs os classify = CustomerResp.okProfile m →
      m.sentimentDistribution.positive + m.sentimentDistribution.neutral
        + m.sentimentDistribution.negative = m.totalFeedback) ∧
    (∀ (classify : Classifier) (its : Except String (Option FoodItemRec))
        (os : Except String (List ℕ × ℕ)) (m : ProfileMetrics),
      foodItemSatisfactionRoute true its os classify = FoodResp.okMetrics m →
      m.sentimentDistribution.positive + m.sentimentDistribution.neutral
        + m.sentimentDistribution.negative = m.totalFeedback) := by
  refine ⟨?_, ?_, ?_⟩
  · intro classify l
    simp only [globalMetrics, globalMetricsOf]
    rw [countLabels_sum]
    simp
  · intro classify fs os m h
    match fs with
    | Except.error e => simp [customerSatisfactionRoute] at h
    | Except.ok fbs =>
      by_cases hemp : fbs.isEmpty
      · simp [customerSatisfactionRoute, hemp] at h
      · match os with
        | Except.error e => simp [customerSatisfactionRoute, hemp] at h
        | Except.ok (od, tot) =>
          simp only [customerSatisfactionRoute, Bool.not_true, Bool.false_eq_true,
            if_false, hemp, if_neg, CustomerResp.okProfile.injEq] at h
          subst h
          simp only [profileMetrics]
          rw [countLabels_sum]
          simp
  · intro classify its os m h
    match its with
    | Except.error e => simp [foodItemSatisfactionRoute] at h
    | Except.ok none => simp [foodItemSatisfactionRoute] at h
    | Except.ok (some item) =>
      by_cases hemp : item.feedback.isEmpty
      · simp [foodItemSatisfactionRoute, hemp] at h
      · match os with
        | Except.error e => simp [foodItemSatisfactionRoute, hemp] at h
        | Except.ok (od, tot) =>
          simp only [foodItemSatisfactionRoute, Bool.not_true, Bool.false_eq_true,
            if_false, hemp, if_neg, FoodResp.okMetrics.injEq] at h
          subst h
          simp only [profileMetrics]
          rw [countLabels_sum]
          simp

/-- Concrete instantiation of `sentiment_distribution_sums_to_total`: a
one-record customer scope. -/
theorem sentiment_distribution_sums_to_total_witness :
    (profileMetrics [({rating := 5, comment := "nice", createdAt := 0} : FeedbackRec)]
        ([({rating := 5, comment := "nice", createdAt := 0} : FeedbackRec)].map
          fun fb => analyzeSentiment okClassifier fb.comment)
        [] 0).sentimentDistribution.positive
      + (profileMetrics [({rating := 5, comment := "nice", createdAt := 0} : FeedbackRec)]
          ([({rating := 5, comment := "nice", createdAt := 0} : FeedbackRec)].map
            fun fb => analyzeSentiment okClassifier fb.comment)
          [] 0).sentimentDistribution.neutral
      + (profileMetrics [({rating := 5, comment := "nice", createdAt := 0} : FeedbackRec)]
          ([({rating := 5, comment := "nice", createdAt := 0} : FeedbackRec)].map
            fun fb => analyzeSentiment okClassifier fb.comment)
          [] 0).sentimentDistribution.negative
      = (profileMetrics [({rating := 5, comment := "nice", createdAt := 0} : FeedbackRec)]
          ([({rating := 5, comment := "nice", createdAt := 0} : FeedbackRec)].map
            fun fb => analyzeSentiment okClassifier fb.comment)
          [] 0).totalFeedback :=
  sentiment_distribution_sums_to_total.2.1 okClassifier
    (Except.ok [({rating := 5, comment := "nice", createdAt := 0} : FeedbackRec)])
    (Except.ok ([], 0)) _ rfl

/-- C2 (amended): across the three analytics scopes the satisfaction score
lies in [0, 100] (given the data-model invariant that ratings are at most
5); the per-customer and per-item routes return their no-feedback response
without computing a score when the scope is empty; the global dashboard
however invokes the scorer even for an empty scope (see
`global_dashboard_scores_empty_scope`). -/
theorem satisfaction_score_range_and_empty_scope_guards :
    (∀ (classify : Classifier) (l : List FeedbackRec), (∀ fb ∈ l, fb.rating ≤ 5) →
      0 ≤ (globalMetrics classify l).satisfactionScore
        ∧ (globalMetrics classify l).satisfactionScore ≤ 100) ∧
    (∀ (classify : Classifier) (fbs : List FeedbackRec)
        (os : Except String (List ℕ × ℕ)) (m : ProfileMetrics),
      (∀ fb ∈ fbs, fb.rating ≤ 5) →
      customerSatisfactionRoute true (Except.ok fbs) os classify = CustomerResp.okProfile m →
      0 ≤ m.satisfactionScore ∧ m.satisfactionScore ≤ 100) ∧
    (∀ (classify : Classifier) (item : FoodItemRec)
        (os : Except String (List ℕ × ℕ)) (m : ProfileMetrics),
      (∀ fb ∈ item.feedback, fb.rating ≤ 5) →
      foodItemSatisfactionRoute true (Except.ok (some item)) os classify = FoodResp.okMetrics m →
      0 ≤ m.satisfactionScore ∧ m.satisfactionScore ≤ 100) ∧
    (∀ (classify : Classifier) (os : Except String (List ℕ × ℕ)),
      customerSatisfactionRoute true (Except.ok []) os classify = CustomerResp.okNoFeedback) ∧
    (∀ (classify : Classifier) (os : Except String (List ℕ × ℕ)) (name : String),
      foodItemSatisfactionRoute true (Except.ok (some ⟨name, []⟩)) os classify
        = FoodResp.okNoFeedback) := by
  refine ⟨?_, ?_, ?_, fun _ _ => rfl, fun _ _ _ => rfl⟩
  · intro classify l h
    simp only [globalMetrics, globalMetricsOf]
    have h05 : 0 ≤ (if 0 < l.length then ratingSum l / (l.length : ℚ) else 0)
        ∧ (if 0 < l.length then ratingSum l / (l.length : ℚ) else 0) ≤ 5 := by
      split_ifs with hl
      · exact meanRating_bounds l h
      · norm_num
    exact calculateSatisfactionScore_bounds _ _ h05.1 h05.2
  · intro classify fbs os m h hroute
    by_cases hemp : fbs.isEmpty
    · simp [customerSatisfactionRoute, hemp] at hroute
    · match os with
      | Except.error e => simp [customerSatisfactionRoute, hemp] at hroute
      | Except.ok (od, tot) =>
        simp only [customerSatisfactionRoute, Bool.not_true, Bool.false_eq_true,
          if_false, hemp, if_neg, CustomerResp.okProfile.injEq] at hroute
        subst hroute
        simp only [profileMetrics]
        exact calculateSatisfactionScore_bounds _ _
          (meanRating_bounds fbs h).1 (meanRating_bounds fbs h).2
  · intro classify item os m h hroute
    by_cases hemp : item.feedback.isEmpty
    · simp [foodItemSatisfactionRoute, hemp] at hroute
    · match os with
      | Except.error e => simp [foodItemSatisfactionRoute, hemp] at hroute
      | Except.ok (od, tot) =>
        simp only [foodItemSatisfactionRoute, Bool.not_true, Bool.false_eq_true,
          if_false, hemp, if_neg, FoodResp.okMetrics.injEq] at hroute
        subst hroute
        simp only [profileMetrics]
        exact calculateSatisfactionScore_bounds _ _
          (meanRating_bounds item.feedback h).1 (meanRating_bounds item.feedback h).2

/-- Counterexample to C2 as stated: the global dashboard route invokes the
scorer on an empty scope - with zero feedback records it still computes a
satisfaction score, namely 20 (average 0, default sentiment ratio 0.5). -/
theorem global_dashboard_scores_empty_scope :
    (globalMetrics okClassifier []).satisfactionScore = calculateSatisfactionScore 0 ⟨0, 0, 0⟩ ∧
    calculateSatisfactionScore 0 ⟨0, 0, 0⟩ = 20 := by
  refine ⟨rfl, ?_⟩
  show (roundTo2 ((0:ℚ) / 5 * (6/10) + (1/2) * (4/10)) * 100) = 20
  unfold roundTo2
  have hfl : ⌊((0:ℚ) / 5 * (6/10) + 1/2 * (4/10)) * 100 + 1/2⌋ = 20 := by
    rw [Int.floor_eq_iff]
    norm_num
  rw [hfl]
  norm_num

/-- Concrete instantiation of
`satisfaction_score_range_and_empty_scope_guards`. -/
theorem satisfaction_score_range_witness :
    (0 ≤ (globalMetrics okClassifier
          [({rating := 5, comment := "good", createdAt := 0} : FeedbackRec)]).satisfactionScore
      ∧ (globalMetrics okClassifier
          [({rating := 5, comment := "good", createdAt := 0} : FeedbackRec)]).satisfactionScore ≤ 100) ∧
    customerSatisfactionRoute true (Except.ok []) (Except.ok ([], 0)) okClassifier
      = CustomerResp.okNoFeedback :=
  ⟨satisfaction_score_range_and_empty_scope_guards.1 okClassifier
      [({rating := 5, comment := "good", createdAt := 0} : FeedbackRec)] (by decide),
    satisfaction_score_range_and_empty_scope_guards.2.2.2.1 okClassifier (Except.ok ([], 0))⟩

theorem trendBuckets_map_key (period : String) (rs : List FeedbackRec) :
    (trendBuckets period rs).map TrendBucket.key
      = (List.insertionSort (· ≤ ·) (feedbackKeys period rs)).take 30 := by
  unfold trendBuckets
  rw [List.map_take, List.map_map]
  congr 1
  apply List.map_id''
  intro x
  rfl

theorem sortedKeys_sorted_lt (period : String) (rs : List FeedbackRec) :
    List.Sorted (· < ·) (List.insertionSort (· ≤ ·) (feedbackKeys period rs)) := by
  apply List.Sorted.lt_of_le (List.sorted_insertionSort _ _)
  exact (List.perm_insertionSort _ _).nodup_iff.mpr (List.nodup_dedup _)

/-- C4 (amended): for every period the trend aggregation groups records by
the extracted calendar component of their timestamp (day-of-year, week,
month number or year - merging equal components of different years, not a
year-qualified truncation), computes each bucket's average rating over the
bucket's full population, returns buckets strictly ascending by key, and
caps the result at 30 buckets keeping the smallest keys - the prefix of the
ascending key list - so the largest (most recent within the sort order)
keys are the ones dropped. -/
theorem trend_buckets_shape (period : String) (rs : List FeedbackRec) :
    List.Sorted (· < ·) ((trendBuckets period rs).map TrendBucket.key) ∧
    (trendBuckets period rs).length ≤ 30 ∧
    (trendBuckets period rs).map TrendBucket.key
      = (List.insertionSort (· ≤ ·) (feedbackKeys period rs)).take 30 ∧
    ∀ b ∈ trendBuckets period rs,
      b.averageRating
          = ratingSum (keyGroup period b.key rs) / ((keyGroup period b.key rs).length : ℚ)
        ∧ b.count = (keyGroup period b.key rs).length
        ∧ keyGroup period b.key rs ≠ [] := by
  refine ⟨?_, ?_, trendBuckets_map_key period rs, ?_⟩
  · rw [trendBuckets_map_key]
    exact List.Pairwise.sublist (List.take_sublist _ _) (sortedKeys_sorted_lt period rs)
  · unfold trendBuckets
    exact List.length_take_le _ _
  · intro b hb
    unfold trendBuckets at hb
    have hb' := List.mem_of_mem_take hb
    rw [List.mem_map] at hb'
    obtain ⟨k, hk, rfl⟩ := hb'
    refine ⟨rfl, rfl, ?_⟩
    rw [(List.perm_insertionSort _ _).mem_iff] at hk
    unfold feedbackKeys at hk
    rw [List.mem_dedup, List.mem_map] at hk
    obtain ⟨r, hr, hkey⟩ := hk
    have hmem : r ∈ keyGroup period k rs := by
      unfold keyGroup
      rw [List.mem_filter]
      exact ⟨hr, by simp [hkey]⟩
    exact List.ne_nil_of_mem hmem

/-- Counterexample to C4 as stated: (i) the grouping key is not a
truncation of the timestamp - records of February 2024 and February 2025
have different month-granularity truncations yet land in one and the same
bucket; (ii) with 31 day-buckets the cap keeps keys 1..30 and drops key 31 -
the oldest buckets are retained and the newest one is dropped, not the
other way round. -/
theorem trend_buckets_counterexample :
    (trendBuckets "month"
        [({rating := 5, comment := "a", createdAt := mkMs 2024 2 10} : FeedbackRec),
         ({rating := 3, comment := "b", createdAt := mkMs 2025 2 10} : FeedbackRec)]).length = 1 ∧
    specTruncateToPeriod "month" (mkMs 2024 2 10) ≠ specTruncateToPeriod "month" (mkMs 2025 2 10) ∧
    (trendBuckets "day"
        ((List.range 31).map fun i =>
          ({rating := 5, comment := "c", createdAt := i * msPerDay} : FeedbackRec))).map TrendBucket.key
      = (List.range 30).map (· + 1) ∧
    (1 : ℕ) ∈ (trendBuckets "day"
        ((List.range 31).map fun i =>
          ({rating := 5, comment := "c", createdAt := i * msPerDay} : FeedbackRec))).map TrendBucket.key ∧
    (31 : ℕ) ∉ (trendBuckets "day"
        ((List.range 31).map fun i =>
          ({rating := 5, comment := "c", createdAt := i * msPerDay} : FeedbackRec))).map TrendBucket.key := by
  refine ⟨rfl, by decide, by decide, by decide, by decide⟩

/-- Concrete instantiation of `trend_buckets_shape`: one March-2024 record,
one bucket with key 3 whose statistics cover its full group. -/
theorem trend_buckets_shape_witness :
    List.Sorted (· < ·) ((trendBuckets "month"
        [({rating := 5, comment := "a", createdAt := mkMs 2024 3 15} : FeedbackRec)]).map TrendBucket.key) ∧
    (trendBuckets "month"
        [({rating := 5, comment := "a", createdAt := mkMs 2024 3 15} : FeedbackRec)]).head!.count
      = (keyGroup "month"
          (trendBuckets "month"
            [({rating := 5, comment := "a", createdAt := mkMs 2024 3 15} : FeedbackRec)]).head!.key
          [({rating := 5, comment := "a", createdAt := mkMs 2024 3 15} : FeedbackRec)]).length := by
  have h := trend_buckets_shape "month"
    [({rating := 5, comment := "a", createdAt := mkMs 2024 3 15} : FeedbackRec)]
  refine ⟨h.1, ?_⟩
  have hne : trendBuckets "month"
      [({rating := 5, comment := "a", createdAt := mkMs 2024 3 15} : FeedbackRec)] ≠ [] := by
    decide
  exact (h.2.2.2 _ (List.head!_mem_self hne)).2.1

/-- C5 (the code at the failing input): for period `month` and a single
feedback record of 2024-03-15, the trend aggregation produces the bucket
with key 3 containing that record (count 1), yet the candidate pool of the
bucket's sentiment sample is empty, because `new Date(periodData._id)`
reinterprets the group key 3 as 3 milliseconds past the 1970 epoch: the
sample window is [1970-01-01T00:00:00.003Z, 1970-02-01T00:00:00.003Z), which
cannot contain any record of the bucket. -/
theorem trend_sentiment_window_misses_bucket :
    (trendBuckets "month"
        [({rating := 5, comment := "Great", createdAt := mkMs 2024 3 15} : FeedbackRec)]).map
        TrendBucket.key = [3] ∧
    (trendBuckets "month"
        [({rating := 5, comment := "Great", createdAt := mkMs 2024 3 15} : FeedbackRec)]).map
        TrendBucket.count = [1] ∧
    windowFeedback "month" 3
        [({rating := 5, comment := "Great", createdAt := mkMs 2024 3 15} : FeedbackRec)] = [] ∧
    getNextPeriodDate 3 "month" = 31 * msPerDay + 3 := by
  refine ⟨by decide, by decide, by decide, by decide⟩


theorem analyzeSentiment_override_eq (f : Classifier) (t e s : String) :
    analyzeSentiment (overrideErr f t e) s = analyzeSentiment (overrideOk f t) s := by
  by_cases hs : s = t
  · subst hs
    simp [analyzeSentiment, overrideErr, overrideOk]
  · simp [analyzeSentiment, overrideErr, overrideOk, hs]

theorem attachSentiments_override_eq (f : Classifier) (t e : String) (fbs : List UserFeedback) :
    attachSentiments (overrideErr f t e) fbs = attachSentiments (overrideOk f t) fbs := by
  unfold attachSentiments
  apply List.map_congr_left
  intro fb _
  by_cases hs : fb.comment = t
  · rw [hs]
    simp [overrideErr, overrideOk]
  · simp [overrideErr, overrideOk, hs]

/-- C6: empty or whitespace-only text short-circuits the sentiment adapter
to neutral/0.5 without consulting the classifier (the result is independent
of the classifier oracle); a failing classifier call also yields
neutral/0.5; and injecting a failure for any single comment leaves the
scorer's metrics and the synthesizer's recommendation exactly as if that
comment had been classified neutral/0.5 - it never fails the overall
request. -/
theorem classifier_failure_isolation :
    (∀ (f : Classifier) (t : String), jsTrim t = "" →
      analyzeSentiment f t = ⟨Label.neutral, 1/2⟩) ∧
    (∀ (f g : Classifier) (t : String), jsTrim t = "" →
      analyzeSentiment f t = analyzeSentiment g t) ∧
    (∀ (f : Classifier) (t e : String), f t = Except.error e →
      analyzeSentiment f t = ⟨Label.neutral, 1/2⟩) ∧
    (∀ (f : Classifier) (t e : String) (l : List FeedbackRec),
      globalMetrics (overrideErr f t e) l = globalMetrics (overrideOk f t) l) ∧
    (∀ (f : Classifier) (t e : String) (su : Summarizer) (ge : Generator)
        (store : Except String (List UserFeedback)) (items : List OrderItem),
      generateChefRecommendation (overrideErr f t e) su ge store items
        = generateChefRecommendation (overrideOk f t) su ge store items) := by
  refine ⟨?_, ?_, ?_, ?_, ?_⟩
  · intro f t h
    simp [analyzeSentiment, h]
  · intro f g t h
    simp [analyzeSentiment, h]
  · intro f t e h
    unfold analyzeSentiment
    split_ifs with htrim
    · rfl
    · rw [h]
  · intro f t e l
    unfold globalMetrics
    congr 1
    apply List.map_congr_left
    intro fb _
    exact analyzeSentiment_override_eq f t e fb.comment
  · intro f t e su ge store items
    cases store with
    | error msg => rfl
    | ok fbs =>
      show (if fbs.isEmpty then noHistoryRec
          else chefRecFromSentiments su ge fbs (attachSentiments (overrideErr f t e) fbs) items)
        = (if fbs.isEmpty then noHistoryRec
          else chefRecFromSentiments su ge fbs (attachSentiments (overrideOk f t) fbs) items)
      rw [attachSentiments_override_eq]

/-- Concrete instantiation of `classifier_failure_isolation`: a
whitespace-only comment under a failing classifier, a failing call on a
non-empty comment, and a single injected failure inside the synthesizer. -/
theorem classifier_failure_isolation_witness :
    analyzeSentiment failClassifier "   " = ⟨Label.neutral, 1/2⟩ ∧
    analyzeSentiment failClassifier "bad" = ⟨Label.neutral, 1/2⟩ ∧
    generateChefRecommendation (overrideErr okClassifier "Soggy" "boom") suOk geOk
        (Except.ok [({foodItem := "Pasta", comment := "Soggy", rating := 2, createdAt := 0}
          : UserFeedback)]) []
      = generateChefRecommendation (overrideOk okClassifier "Soggy") suOk geOk
        (Except.ok [({foodItem := "Pasta", comment := "Soggy", rating := 2, createdAt := 0}
          : UserFeedback)]) [] :=
  ⟨classifier_failure_isolation.1 failClassifier "   " (by decide),
   classifier_failure_isolation.2.2.1 failClassifier "bad" "service unavailable" rfl,
   classifier_failure_isolation.2.2.2.2 okClassifier "Soggy" "boom" suOk geOk _ _⟩

/-- C7: with a non-empty history, the priority is the stated deterministic
function of (averageRating, negativeCount, totalFeedback) - high exactly
when avgRating < 2.5 or negativeCount > 0.5 * totalFeedback, low exactly
when avgRating > 4.2 and negativeCount = 0, normal otherwise - and the
overall sentiment label is positive exactly when avgRating >= 3, neutral
exactly when 2 <= avgRating < 3, negative otherwise. -/
theorem recommendation_priority_deterministic (avg : ℚ) (neg total : ℕ) (h : 0 < total) :
    (computePriority avg neg total = Priority.high ↔
      avg < 5/2 ∨ (total : ℚ) * (5/10) < (neg : ℚ)) ∧
    (computePriority avg neg total = Priority.low ↔ 21/5 < avg ∧ neg = 0) ∧
    (computePriority avg neg total = Priority.normal ↔
      ¬(avg < 5/2 ∨ (total : ℚ) * (5/10) < (neg : ℚ)) ∧ ¬(21/5 < avg ∧ neg = 0)) ∧
    (overallSentiment avg = Label.positive ↔ 3 ≤ avg) ∧
    (overallSentiment avg = Label.neutral ↔ 2 ≤ avg ∧ avg < 3) ∧
    (overallSentiment avg = Label.negative ↔ avg < 2) := by
  have hexcl : (21/5 < avg ∧ neg = 0) → ¬(avg < 5/2 ∨ (total : ℚ) * (5/10) < (neg : ℚ)) := by
    rintro ⟨ha, hb⟩ (hc | hd)
    · linarith
    · rw [hb] at hd
      norm_num at hd
      have : (0:ℚ) ≤ (total : ℚ) := by positivity
      linarith
  have hsent : (overallSentiment avg = Label.positive ↔ 3 ≤ avg) ∧
      (overallSentiment avg = Label.neutral ↔ 2 ≤ avg ∧ avg < 3) ∧
      (overallSentiment avg = Label.negative ↔ avg < 2) := by
    unfold overallSentiment
    split_ifs with s1 s2
    · refine ⟨by simp [s1], ?_, ?_⟩
      · simp only [reduceCtorEq, false_iff]
        rintro ⟨-, hb⟩
        linarith
      · simp only [reduceCtorEq, false_iff]
        intro hb
        linarith
    · refine ⟨by simpa using s1, ?_, ?_⟩
      · simp only [true_iff]
        exact ⟨s2, by linarith [not_le.mp s1]⟩
      · simp only [reduceCtorEq, false_iff]
        intro hb
        linarith
    · refine ⟨by simpa using s1, ?_, ?_⟩
      · simp only [reduceCtorEq, false_iff]
        rintro ⟨ha, -⟩
        exact s2 ha
      · simpa using (by linarith [not_le.mp s2] : avg < 2)
  by_cases h1 : avg < 5/2 ∨ (total : ℚ) * (5/10) < (neg : ℚ)
  · have hp : computePriority avg neg total = Priority.high := by
      unfold computePriority
      rw [if_pos h1]
    refine ⟨by simp [hp, h1], ?_, ?_, hsent.1, hsent.2.1, hsent.2.2⟩
    · rw [hp]
      simp only [reduceCtorEq, false_iff]
      intro hc
      exact absurd h1 (hexcl hc)
    · rw [hp]
      simp only [reduceCtorEq, false_iff]
      rintro ⟨hn, -⟩
      exact absurd h1 hn
  · by_cases h2 : 21/5 < avg ∧ neg = 0
    · have hp : computePriority avg neg total = Priority.low := by
        unfold computePriority
        rw [if_neg h1, if_pos h2]
      refine ⟨?_, by rw [hp]; simp only [true_iff]; exact h2, ?_, hsent.1, hsent.2.1, hsent.2.2⟩
      · rw [hp]
        simp only [reduceCtorEq, false_iff]
        intro hc
        exact absurd hc h1
      · rw [hp]
        simp only [reduceCtorEq, false_iff]
        rintro ⟨-, hn⟩
        exact absurd h2 hn
    · have hp : computePriority avg neg total = Priority.normal := by
        unfold computePriority
        rw [if_neg h1, if_neg h2]
      refine ⟨?_, ?_, by simp [hp, h1, h2], hsent.1, hsent.2.1, hsent.2.2⟩
      · rw [hp]
        simp only [reduceCtorEq, false_iff]
        intro hc
        exact absurd hc h1
      · rw [hp]
        simp only [reduceCtorEq, false_iff]
        intro hc
        exact absurd hc h2

/-- Concrete instantiation of `recommendation_priority_deterministic` on the
spec's three examples. -/
theorem recommendation_priority_deterministic_witness :
    computePriority 2 3 4 = Priority.high ∧
    computePriority (9/2) 0 5 = Priority.low ∧
    computePriority (7/2) 1 5 = Priority.normal ∧
    overallSentiment (7/2) = Label.positive :=
  ⟨(recommendation_priority_deterministic 2 3 4 (by norm_num)).1.mpr (by norm_num),
   (recommendation_priority_deterministic (9/2) 0 5 (by norm_num)).2.1.mpr (by norm_num),
   (recommendation_priority_deterministic (7/2) 1 5 (by norm_num)).2.2.1.mpr
     (by constructor <;> push_cast <;> norm_num),
   (recommendation_priority_deterministic (7/2) 1 5 (by norm_num)).2.2.2.1.mpr (by norm_num)⟩

/-- C8 (amended): for a non-empty history the emitted recommendation
attaches at most 3 feedback samples, each carrying the food item name,
comment, rating, sentiment label and date - but they are the FIRST 3
entries of the aggregated history (`slice(0, 3)`), not the last 3. -/
theorem recommendation_samples_first_three (cl : Classifier) (su : Summarizer) (ge : Generator)
    (fbs : List UserFeedback) (items : List OrderItem) (h : fbs ≠ []) :
    (generateChefRecommendation cl su ge (Except.ok fbs) items).feedbackSamples
      = some (((attachSentiments cl fbs).take 3).map mkSample) ∧
    (((attachSentiments cl fbs).take 3).map mkSample).length ≤ 3 ∧
    ∀ fb : FbWithSentiment, mkSample fb
      = { foodItem := fb.foodItem, comment := fb.comment, rating := fb.rating,
          sentiment := fb.sentiment, date := fmtDate fb.createdAt } := by
  refine ⟨?_, ?_, fun fb => rfl⟩
  · have hemp : fbs.isEmpty = false := by
      cases fbs with
      | nil => exact absurd rfl h
      | cons a as => rfl
    show (if fbs.isEmpty then noHistoryRec
        else chefRecFromSentiments su ge fbs (attachSentiments cl fbs) items).feedbackSamples
      = some (((attachSentiments cl fbs).take 3).map mkSample)
    rw [hemp]
    rfl
  · rw [List.length_map]
    exact List.length_take_le _ _

/-- Counterexample to C8 as stated: on a four-entry history the attached
samples are the first three entries, which differ from the last three. -/
theorem recommendation_samples_not_last_three :
    (generateChefRecommendation okClassifier suOk geOk (Except.ok sampleHistory) []).feedbackSamples
      = some (((attachSentiments okClassifier sampleHistory).take 3).map mkSample) ∧
    ((attachSentiments okClassifier sampleHistory).take 3).map mkSample
      ≠ ((attachSentiments okClassifier sampleHistory).drop 1).map mkSample := by
  exact ⟨rfl, by decide⟩

/-- Concrete instantiation of `recommendation_samples_first_three` on the
four-entry history. -/
theorem recommendation_samples_first_three_witness :
    (generateChefRecommendation okClassifier suOk geOk (Except.ok sampleHistory) []).feedbackSamples
      = some (((attachSentiments okClassifier sampleHistory).take 3).map mkSample) ∧
    (((attachSentiments okClassifier sampleHistory).take 3).map mkSample).length ≤ 3 :=
  ⟨(recommendation_samples_first_three okClassifier suOk geOk sampleHistory []
      (by decide)).1,
   (recommendation_samples_first_three okClassifier suOk geOk sampleHistory []
      (by decide)).2.1⟩

/-- C9 (amended): the per-customer profile route rejects a malformed id with
400 before any aggregation, returns 500 exactly when a backing-store query
fails, and otherwise returns the well-formed profile whatever the classifier
does; the chef-recommendation path however catches ALL errors - a failing
feedback store yields the degraded default recommendation inside a
successful response, so store failure does NOT propagate there (only a
failing order query fails the chef request). -/
theorem store_failure_propagation (cl : Classifier) (su : Summarizer) (ge : Generator) :
    (∀ (fs : Except String (List FeedbackRec)) (os : Except String (List ℕ × ℕ)),
      customerSatisfactionRoute false fs os cl = CustomerResp.badRequest) ∧
    (∀ (e : String) (os : Except String (List ℕ × ℕ)),
      customerSatisfactionRoute true (Except.error e) os cl = CustomerResp.serverError) ∧
    (∀ (fbs : List FeedbackRec) (e : String), fbs ≠ [] →
      customerSatisfactionRoute true (Except.ok fbs) (Except.error e) cl
        = CustomerResp.serverError) ∧
    (∀ (fbs : List FeedbackRec) (od : List ℕ) (tot : ℕ), fbs ≠ [] →
      customerSatisfactionRoute true (Except.ok fbs) (Except.ok (od, tot)) cl
        = CustomerResp.okProfile (profileMetrics fbs
            (fbs.map fun fb => analyzeSentiment cl fb.comment) od tot)) ∧
    (∀ (e : String) (items : List OrderItem),
      generateChefRecommendation cl su ge (Except.error e) items = catchAllRec) ∧
    (∀ (orders : List ChefOrder) (fsf : String → Except String (List UserFeedback)),
      ∃ l, chefRouteAnalyses (Except.ok orders) fsf cl su ge = Except.ok l) ∧
    (∀ (e : String) (fsf : String → Except String (List UserFeedback)),
      chefRouteAnalyses (Except.error e) fsf cl su ge = Except.error 500) := by
  refine ⟨fun fs os => rfl, fun e os => rfl, ?_, ?_, fun e items => rfl,
    fun orders fsf => ⟨_, rfl⟩, fun e fsf => rfl⟩
  · intro fbs e h
    have hemp : fbs.isEmpty = false := by
      cases fbs with
      | nil => exact absurd rfl h
      | cons a as => rfl
    show (if fbs.isEmpty then CustomerResp.okNoFeedback else CustomerResp.serverError)
      = CustomerResp.serverError
    rw [hemp]
    rfl
  · intro fbs od tot h
    have hemp : fbs.isEmpty = false := by
      cases fbs with
      | nil => exact absurd rfl h
      | cons a as => rfl
    show (if fbs.isEmpty then CustomerResp.okNoFeedback
        else CustomerResp.okProfile (profileMetrics fbs
          (fbs.map fun fb => analyzeSentiment cl fb.comment) od tot))
      = CustomerResp.okProfile (profileMetrics fbs
          (fbs.map fun fb => analyzeSentiment cl fb.comment) od tot)
    rw [hemp]
    rfl

/-- Counterexample to C9 as stated: with the backing feedback store
unreachable, the recommendation path does not fail outright - the catch-all
turns the store failure into the degraded default recommendation and the
chef request still succeeds with a 200-style response. -/
theorem store_failure_swallowed_by_recommendation :
    generateChefRecommendation okClassifier suOk geOk (Except.error "connection refused") []
      = catchAllRec ∧
    chefRouteAnalyses (Except.ok [({userId := some "u1", items := []} : ChefOrder)])
        (fun _ => Except.error "connection refused") okClassifier suOk geOk
      = Except.ok [(({userId := some "u1", items := []} : ChefOrder), catchAllRec)] :=
  ⟨rfl, rfl⟩

/-- Concrete instantiation of `store_failure_propagation`. -/
theorem store_failure_propagation_witness :
    customerSatisfactionRoute true
        (Except.ok [({rating := 4, comment := "ok", createdAt := 0} : FeedbackRec)])
        (Except.error "down") okClassifier = CustomerResp.serverError ∧
    customerSatisfactionRoute true
        (Except.ok [({rating := 4, comment := "ok", createdAt := 0} : FeedbackRec)])
        (Except.ok ([], 0)) okClassifier
      = CustomerResp.okProfile
          (profileMetrics [({rating := 4, comment := "ok", createdAt := 0} : FeedbackRec)]
            ([({rating := 4, comment := "ok", createdAt := 0} : FeedbackRec)].map
              fun fb => analyzeSentiment okClassifier fb.comment) [] 0) :=
  ⟨(store_failure_propagation okClassifier suOk geOk).2.2.1 _ "down" (by decide),
   (store_failure_propagation okClassifier suOk geOk).2.2.2.1 _ [] 0 (by decide)⟩

theorem mem_updateFirst_of_ne (reqId status : String) (now : ℕ) (x : Order)
    (hne : x.id ≠ reqId) :
    ∀ db : List Order, x ∈ db → x ∈ updateFirst reqId status now db := by
  intro db
  induction db with
  | nil => intro hx; cases hx
  | cons o rest ih =>
    intro hx
    unfold updateFirst
    rcases List.mem_cons.mp hx with rfl | hmem
    · have hb : (x.id == reqId) = false := beq_eq_false_iff_ne.mpr hne
      simp [hb]
    · by_cases hb : (o.id == reqId) = true
      · simp only [hb, if_true]
        exact List.mem_cons_of_mem _ hmem
      · simp only [hb, if_false, Bool.false_eq_true]
        exact List.mem_cons_of_mem _ (ih hmem)

/-- C10: an order-status update with a status outside
{pending, preparing, ready, completed, cancelled} is rejected with 400 and
the store is untouched; a valid status with no matching order id yields 404;
otherwise the matched order is returned updated with 200, only its `status`
and `updatedAt` fields changed, and every other order is untouched. -/
theorem order_status_update_behavior (reqId status : String) (now : ℕ) (db : List Order) :
    (status ∉ validStatuses →
      updateOrderStatus reqId status now db = ⟨400, none, db⟩) ∧
    (status ∈ validStatuses → (∀ o ∈ db, o.id ≠ reqId) →
      updateOrderStatus reqId status now db = ⟨404, none, db⟩) ∧
    (∀ o : Order, status ∈ validStatuses →
      db.find? (fun x => x.id == reqId) = some o →
      updateOrderStatus reqId status now db
          = ⟨200, some (applyStatusUpdate o status now), updateFirst reqId status now db⟩
        ∧ (applyStatusUpdate o status now).status = status
        ∧ (applyStatusUpdate o status now).updatedAt = now
        ∧ (applyStatusUpdate o status now).id = o.id
        ∧ (applyStatusUpdate o status now).userId = o.userId
        ∧ (applyStatusUpdate o status now).items = o.items
        ∧ (applyStatusUpdate o status now).createdAt = o.createdAt
        ∧ (applyStatusUpdate o status now).totalAmount = o.totalAmount) ∧
    (∀ x ∈ db, x.id ≠ reqId → x ∈ (updateOrderStatus reqId status now db).db) := by
  refine ⟨?_, ?_, ?_, ?_⟩
  · intro h
    unfold updateOrderStatus
    rw [if_pos h]
  · intro hmem hids
    have hfind : db.find? (fun x => x.id == reqId) = none := by
      rw [List.find?_eq_none]
      intro a ha
      simpa using hids a ha
    unfold updateOrderStatus
    rw [if_neg (not_not_intro hmem), hfind]
  · intro o hmem hfind
    refine ⟨?_, rfl, rfl, rfl, rfl, rfl, rfl, rfl⟩
    unfold updateOrderStatus
    rw [if_neg (not_not_intro hmem), hfind]
  · intro x hx hne
    unfold updateOrderStatus
    split_ifs with hv
    · cases hfind : db.find? (fun o => o.id == reqId) with
      | none => exact hx
      | some o => exact mem_updateFirst_of_ne reqId status now x hne db hx
    · exact hx

/-- Concrete instantiation of `order_status_update_behavior` on a
one-order store. -/
theorem order_status_update_behavior_witness :
    updateOrderStatus "o1" "bogus" 7
        [({id := "o1", userId := "u1", items := [], status := "pending", createdAt := 0,
           updatedAt := 0, totalAmount := 10} : Order)]
      = ⟨400, none,
         [({id := "o1", userId := "u1", items := [], status := "pending", createdAt := 0,
            updatedAt := 0, totalAmount := 10} : Order)]⟩ ∧
    updateOrderStatus "zz" "ready" 7
        [({id := "o1", userId := "u1", items := [], status := "pending", createdAt := 0,
           updatedAt := 0, totalAmount := 10} : Order)]
      = ⟨404, none,
         [({id := "o1", userId := "u1", items := [], status := "pending", createdAt := 0,
            updatedAt := 0, totalAmount := 10} : Order)]⟩ ∧
    updateOrderStatus "o1" "ready" 7
        [({id := "o1", userId := "u1", items := [], status := "pending", createdAt := 0,
           updatedAt := 0, totalAmount := 10} : Order)]
      = ⟨200,
         some (applyStatusUpdate
           ({id := "o1", userId := "u1", items := [], status := "pending", createdAt := 0,
             updatedAt := 0, totalAmount := 10} : Order) "ready" 7),
         updateFirst "o1" "ready" 7
           [({id := "o1", userId := "u1", items := [], status := "pending", createdAt := 0,
              updatedAt := 0, totalAmount := 10} : Order)]⟩ :=
  ⟨(order_status_update_behavior "o1" "bogus" 7 _).1 (by decide),
   (order_status_update_behavior "zz" "ready" 7 _).2.1 (by decide) (by decide),
   ((order_status_update_behavior "o1" "ready" 7
        [({id := "o1", userId := "u1", items := [], status := "pending", createdAt := 0,
           updatedAt := 0, totalAmount := 10} : Order)]).2.2.1
      ({id := "o1", userId := "u1", items := [], status := "pending", createdAt := 0,
        updatedAt := 0, totalAmount := 10} : Order) (by decide) rfl).1⟩
